import Mathlib

/-!
Verification of the Grid Composition Engine (src/lib/grid.ts, src/lib/textOverlay.ts,
src/lib/utils.ts).  The embedding follows the TypeScript source: integer-valued
quantities (all grid options are integers per the data model) are modelled with `Int`,
and the places where the source performs floating-point division (`Math.min` of two
ratios, halving of offsets) are modelled with exact rationals `ℚ`.  `Math.floor` of an
integer quotient is `Int.fdiv`, `Math.ceil` is negated `Int.fdiv` of the negation, and
`Math.round` is `⌊q + 1/2⌋` (JavaScript rounds halves towards positive infinity).
-/

namespace Forge

/-- JavaScript `Math.floor(a / b)` for integers `a`, `b` (`b > 0` in all call sites). -/
def jsFloorDiv (a b : Int) : Int := Int.fdiv a b

/-- JavaScript `Math.ceil(a / b)` for integers `a`, `b` (`b > 0` in all call sites). -/
def jsCeilDiv (a b : Int) : Int := -(Int.fdiv (-a) b)

/-- JavaScript `Math.round`: rounds to the nearest integer, halves towards `+∞`. -/
def jsRound (q : ℚ) : Int := ⌊q + 1/2⌋

/-- JavaScript `x || 1` applied to a number: `0` is falsy and is replaced by `1`. -/
def jsOrOne (x : Int) : Int := if x = 0 then 1 else x

/-- The `imageFit` option of `GridOptions` (`src/types`). -/
inductive ImageFit where
  | cover
  | contain
  | fill
deriving DecidableEq

/-- `GridOptions` from `src/types`: all numeric fields are integers per the data model. -/
structure GridOptions where
  rows : Int
  cols : Int
  width : Int
  height : Int
  padding : Int
  backgroundColor : String
  borderWidth : Int
  borderColor : String
  cornerRadius : Int
  imageFit : ImageFit
deriving DecidableEq

/-- `calculateActualRows` from `grid.ts`: `Math.ceil(imageCount / cols)`. -/
def calculateActualRows (imageCount : Nat) (cols : Int) : Int :=
  jsCeilDiv (imageCount : Int) cols

/-- Return type of `calculateActualDimensions`. -/
structure ActualDimensions where
  width : Int
  height : Int
  rows : Int
  cols : Int
deriving DecidableEq

/-- `calculateActualDimensions` from `grid.ts` (lines 28-62). -/
def calculateActualDimensions (options : GridOptions) (imageCount : Nat) :
    ActualDimensions :=
  let actualRows := calculateActualRows imageCount options.cols
  let totalPaddingX := options.padding * (options.cols + 1)
  let totalBorderX := options.borderWidth * options.cols * 2
  let availableWidth := options.width - totalPaddingX - totalBorderX
  let _cellWidth := jsFloorDiv availableWidth options.cols
  let originalRows := options.rows
  let totalPaddingYOriginal := options.padding * (originalRows + 1)
  let totalBorderYOriginal := options.borderWidth * originalRows * 2
  let availableHeightOriginal := options.height - totalPaddingYOriginal - totalBorderYOriginal
  let cellHeight := jsFloorDiv availableHeightOriginal originalRows
  let totalPaddingY := options.padding * (actualRows + 1)
  let totalBorderY := options.borderWidth * actualRows * 2
  let actualHeight := totalPaddingY + totalBorderY + cellHeight * actualRows
  { width := options.width, height := actualHeight, rows := actualRows, cols := options.cols }

/-- `CellPosition` from `grid.ts`. -/
structure CellPosition where
  x : Int
  y : Int
  width : Int
  height : Int
deriving DecidableEq

/-- `calculateCellPositions` from `grid.ts` (lines 67-118).  `Math.round` on the pushed
`x`/`y` is the identity since both are integer expressions. -/
def calculateCellPositions (options : GridOptions) (imageCount : Nat) :
    List CellPosition :=
  let cols := options.cols
  let padding := options.padding
  let borderWidth := options.borderWidth
  let actualRows := calculateActualRows imageCount cols
  let totalPaddingX := padding * (cols + 1)
  let totalBorderX := borderWidth * cols * 2
  let availableWidth := options.width - totalPaddingX - totalBorderX
  let cellWidth := jsFloorDiv availableWidth cols
  let originalRows := options.rows
  let totalPaddingYOriginal := padding * (originalRows + 1)
  let totalBorderYOriginal := borderWidth * originalRows * 2
  let availableHeightOriginal := options.height - totalPaddingYOriginal - totalBorderYOriginal
  let cellHeight := jsFloorDiv availableHeightOriginal originalRows
  let finalCellWidth := max 1 cellWidth
  let finalCellHeight := max 1 cellHeight
  (List.range imageCount).filterMap fun (i : Nat) =>
    let row := jsFloorDiv (i : Int) cols
    let col := (i : Int) % cols
    if actualRows ≤ row then none
    else
      some { x := padding + borderWidth + col * (finalCellWidth + borderWidth * 2 + padding),
             y := padding + borderWidth + row * (finalCellHeight + borderWidth * 2 + padding),
             width := finalCellWidth,
             height := finalCellHeight }

/-- The per-request option rewrite performed inside `buildGrid` and `buildGridSvg`
(lines 280-284 and 446-450): `rows` becomes the actual row count and `height` the
recomputed canvas height. -/
def adjustedOptions (options : GridOptions) (imageCount : Nat) : GridOptions :=
  let actualDimensions := calculateActualDimensions options imageCount
  { options with rows := actualDimensions.rows, height := actualDimensions.height }

/-- RGB triple as returned by `hexToRgb` (`utils.ts`). -/
structure Rgb where
  r : Int
  g : Int
  b : Int
deriving DecidableEq

/-- A character matched by the `[a-f\d]` class of the `hexToRgb` regular expression
(case-insensitive flag `i`). -/
def isHexDigit (c : Char) : Bool :=
  (decide (Char.ofNat 48 ≤ c) && decide (c ≤ Char.ofNat 57)) ||
  (decide (Char.ofNat 97 ≤ c) && decide (c ≤ Char.ofNat 102)) ||
  (decide (Char.ofNat 65 ≤ c) && decide (c ≤ Char.ofNat 70))

/-- Value of a single hexadecimal digit, as `parseInt(-, 16)` assigns it. -/
def hexDigitVal (c : Char) : Int :=
  if c ≤ Char.ofNat 57 then (c.toNat : Int) - 48
  else if c ≤ Char.ofNat 70 then (c.toNat : Int) - 55
  else (c.toNat : Int) - 87

/-- `parseInt` of a two-hex-digit group. -/
def hexPairVal (a b : Char) : Int := hexDigitVal a * 16 + hexDigitVal b

/-- `hexToRgb` from `utils.ts` (lines 169-178): matches
`/^#?([a-f\d]{2})([a-f\d]{2})([a-f\d]{2})$/i` and parses the three groups. -/
def hexToRgb (hex : String) : Option Rgb :=
  let chars := hex.toList
  let stripped := match chars with
    | c :: rest => if c = Char.ofNat 35 then rest else chars
    | [] => chars
  match stripped with
  | [a, b, c, d, e, f] =>
    if isHexDigit a && isHexDigit b && isHexDigit c &&
       isHexDigit d && isHexDigit e && isHexDigit f then
      some { r := hexPairVal a b, g := hexPairVal c d, b := hexPairVal e f }
    else none
  | _ => none

/-- RGBA color with fractional alpha, as accepted by the raster canvas constructor. -/
structure Rgba where
  r : Int
  g : Int
  b : Int
  alpha : ℚ
deriving DecidableEq

/-- The background computed by `buildGrid` (lines 287-291): `hexToRgb(backgroundColor)`
with alpha `1` when the color parses, otherwise opaque white. -/
def gridBackground (backgroundColor : String) : Rgba :=
  match hexToRgb backgroundColor with
  | some rgb => { r := rgb.r, g := rgb.g, b := rgb.b, alpha := 1 }
  | none => { r := 255, g := 255, b := 255, alpha := 1 }

/-- Dimensions reported by `sharp(imageBuffer).metadata()` for a decodable image. -/
structure ImageMeta where
  width : Int
  height : Int
deriving DecidableEq

/-- A raw input buffer: `decoded` is the metadata when the bytes are a valid raster
image, `none` when decoding fails (sharp then rejects every operation on it). -/
structure SourceBuffer where
  decoded : Option ImageMeta
deriving DecidableEq

/-- `GridImage` from `grid.ts`: a buffer plus its placement order. -/
structure GridImage where
  buffer : SourceBuffer
  order : Int
deriving DecidableEq

/-- Stable insertion of an image into a list sorted by `order` ascending. -/
def insertByOrder (image : GridImage) : List GridImage → List GridImage
  | [] => [image]
  | head :: tail =>
    if image.order ≤ head.order then image :: head :: tail
    else head :: insertByOrder image tail

/-- The stable ascending sort `[...images].sort((a, b) => a.order - b.order)`
performed by `buildGrid` and `buildGridSvg`; a stable sort by `order` is uniquely
determined, and insertion sort realizes it structurally. -/
def sortImages : List GridImage → List GridImage
  | [] => []
  | image :: rest => insertByOrder image (sortImages rest)

/-- `DecodeError`: the error aborting a build, carrying the offending buffer. -/
structure DecodeError where
  buffer : SourceBuffer
deriving DecidableEq

/-- The geometry produced by the `contain` branch of `applyRoundedCorners`
(lines 156-185): a fully transparent canvas of the exact target size with the
uniformly scaled image centered on it. -/
structure ContainLayout where
  canvasWidth : Int
  canvasHeight : Int
  background : Rgba
  innerWidth : Int
  innerHeight : Int
  left : Int
  top : Int
deriving DecidableEq

/-- The `contain` computation of `applyRoundedCorners`:
`scale = Math.min(width/imgWidth, height/imgHeight)`, scaled size rounded, image
centered at rounded half offsets on a transparent `{r:0,g:0,b:0,alpha:0}` canvas. -/
def containLayout (meta : ImageMeta) (width height : Int) : ContainLayout :=
  let imgWidth := jsOrOne meta.width
  let imgHeight := jsOrOne meta.height
  let scale : ℚ := min ((width : ℚ) / (imgWidth : ℚ)) ((height : ℚ) / (imgHeight : ℚ))
  let newWidth := jsRound ((imgWidth : ℚ) * scale)
  let newHeight := jsRound ((imgHeight : ℚ) * scale)
  { canvasWidth := width, canvasHeight := height,
    background := { r := 0, g := 0, b := 0, alpha := 0 },
    innerWidth := newWidth, innerHeight := newHeight,
    left := jsRound (((width - newWidth : Int) : ℚ) / 2),
    top := jsRound (((height - newHeight : Int) : ℚ) / 2) }

/-- Pixel content of a fitted cell: either the `contain` layout, or a direct
resize-to-cell for `cover`/`fill` (sharp `resize` + `extract` to exact size). -/
inductive CellContent where
  | containContent (layout : ContainLayout)
  | coverOrFill (width height : Int)
deriving DecidableEq

/-- Result of `applyRoundedCorners`: a buffer of exactly the requested cell size,
with a rounded-corner mask applied when `radius > 0`. -/
structure ProcessedCell where
  width : Int
  height : Int
  content : CellContent
  roundedRadius : Option Int
deriving DecidableEq

/-- `applyRoundedCorners` from `grid.ts` (lines 143-213).  Every branch first runs
sharp on the input buffer (`metadata()` for `contain`, `resize` otherwise), so an
undecodable buffer fails the whole call with a `DecodeError`. -/
def applyRoundedCorners (imageBuffer : SourceBuffer) (width height radius : Int)
    (imageFit : ImageFit) : Except DecodeError ProcessedCell :=
  match imageBuffer.decoded with
  | none => .error { buffer := imageBuffer }
  | some meta =>
    let content := match imageFit with
      | .contain => CellContent.containContent (containLayout meta width height)
      | .cover => CellContent.coverOrFill width height
      | .fill => CellContent.coverOrFill width height
    .ok { width := width, height := height, content := content,
          roundedRadius := if radius ≤ 0 then none else some radius }

/-- The stroke color computed by `createCellBorder`: the parsed `rgb(r,g,b)` string
when `borderColor` is hex, the raw string otherwise. -/
inductive ColorSpec where
  | rgbColor (r g b : Int)
  | raw (s : String)
deriving DecidableEq

/-- The stroke-only border bitmap produced by `createCellBorder`. -/
structure BorderOverlay where
  width : Int
  height : Int
  color : ColorSpec
  strokeWidth : Int
  cornerRadius : Int
deriving DecidableEq

/-- `createCellBorder` from `grid.ts` (lines 218-254): `null` when
`borderWidth <= 0`, otherwise a `(cellWidth + 2*borderWidth) × (cellHeight +
2*borderWidth)` stroked rounded rect rasterized at exactly that size. -/
def createCellBorder (cellWidth cellHeight borderWidth : Int) (borderColor : String)
    (cornerRadius : Int) : Option BorderOverlay :=
  if borderWidth ≤ 0 then none
  else
    let color := match hexToRgb borderColor with
      | some rgb => ColorSpec.rgbColor rgb.r rgb.g rgb.b
      | none => ColorSpec.raw borderColor
    some { width := cellWidth + borderWidth * 2, height := cellHeight + borderWidth * 2,
           color := color, strokeWidth := borderWidth, cornerRadius := cornerRadius }

/-- Whether a composite entry is a cell image or a border overlay. -/
inductive OpKind where
  | imageOp
  | borderOp
deriving DecidableEq

/-- One sharp composite operation: an input bitmap placed at `(left, top)`. -/
structure CompositeOp where
  kind : OpKind
  left : Int
  top : Int
  width : Int
  height : Int
deriving DecidableEq

/-- The per-image loop of `buildGrid` (lines 308-354): walks images and positions by
index (`continue` when the position is missing), processes each cell, pushes its image
composite, and, when `borderWidth > 0`, its border composite offset by
`-borderWidth`.  A failing cell aborts the whole loop with its error. -/
def buildCellComposites (options : GridOptions) :
    List GridImage → List CellPosition →
    Except DecodeError (List CompositeOp × List CompositeOp)
  | [], _ => .ok ([], [])
  | _ :: _, [] => .ok ([], [])
  | image :: restImages, position :: restPositions =>
    match applyRoundedCorners image.buffer position.width position.height
        options.cornerRadius options.imageFit with
    | .error e => .error e
    | .ok processedImage =>
      match buildCellComposites options restImages restPositions with
      | .error e => .error e
      | .ok (imageComposites, borderComposites) =>
        let imageComposite : CompositeOp :=
          { kind := .imageOp, left := position.x, top := position.y,
            width := processedImage.width, height := processedImage.height }
        let borderOps : List CompositeOp :=
          if 0 < options.borderWidth then
            match createCellBorder position.width position.height options.borderWidth
                options.borderColor options.cornerRadius with
            | some border =>
              [{ kind := .borderOp, left := position.x - options.borderWidth,
                 top := position.y - options.borderWidth,
                 width := border.width, height := border.height }]
            | none => []
          else []
        .ok (imageComposite :: imageComposites, borderOps ++ borderComposites)

/-- The raster composite assembled by `buildGrid`: canvas dimensions, background
fill, and the ordered composite list (`[...imageComposites, ...borderComposites]`). -/
structure RasterResult where
  canvasWidth : Int
  canvasHeight : Int
  background : Rgba
  composites : List CompositeOp
deriving DecidableEq

/-- `buildGrid` from `grid.ts` (lines 259-366). -/
def buildGrid (images : List GridImage) (options : GridOptions) :
    Except DecodeError RasterResult :=
  let sortedImages := sortImages images
  let actualDimensions := calculateActualDimensions options sortedImages.length
  let canvasWidth := actualDimensions.width
  let canvasHeight := actualDimensions.height
  let positions := calculateCellPositions (adjustedOptions options sortedImages.length)
      sortedImages.length
  match buildCellComposites options sortedImages positions with
  | .error e => .error e
  | .ok (imageComposites, borderComposites) =>
    .ok { canvasWidth := canvasWidth, canvasHeight := canvasHeight,
          background := gridBackground options.backgroundColor,
          composites := imageComposites ++ borderComposites }

/-! Text overlays (`textOverlay.ts`). -/

/-- `TextAlign` from `src/types`. -/
inductive TextAlign where
  | left
  | center
  | right
deriving DecidableEq

/-- `FontWeight` from `src/types`. -/
inductive FontWeight where
  | normal
  | bold
deriving DecidableEq

/-- The optional shadow of a `TextOverlay`. -/
structure TextShadow where
  color : String
  blur : Int
  offsetX : Int
  offsetY : Int
deriving DecidableEq

/-- The optional stroke of a `TextOverlay`. -/
structure TextStroke where
  color : String
  width : Int
deriving DecidableEq

/-- `TextOverlay` from `src/types`: `x`, `y` are fractions of the canvas size. -/
structure TextOverlay where
  text : String
  x : ℚ
  y : ℚ
  fontFamily : String
  fontSize : Int
  fontWeight : FontWeight
  color : String
  align : TextAlign
  shadow : Option TextShadow
  stroke : Option TextStroke
deriving DecidableEq

/-- Replacement for one character under `escapeXml`: the source chains five global
single-character replaces whose replacement entities contain none of the
subsequently replaced characters, so the chain equals this per-character map
(characters 38, 60, 62, 34, 39 are the five escaped ones). -/
def escapeXmlChar (c : Char) : List Char :=
  if c = Char.ofNat 38 then "&amp;".toList
  else if c = Char.ofNat 60 then "&lt;".toList
  else if c = Char.ofNat 62 then "&gt;".toList
  else if c = Char.ofNat 34 then "&quot;".toList
  else if c = Char.ofNat 39 then "&apos;".toList
  else [c]

/-- `escapeXml` from `textOverlay.ts`. -/
def escapeXml (text : String) : String :=
  String.mk (text.toList.map escapeXmlChar).flatten

/-- `mapFontFamily` from `textOverlay.ts`. -/
def mapFontFamily (fontFamily : String) : String :=
  if fontFamily = "Arial" then "Arial, sans-serif"
  else if fontFamily = "Helvetica" then "Helvetica, Arial, sans-serif"
  else if fontFamily = "Georgia" then "Georgia, serif"
  else if fontFamily = "Times New Roman" then "Times New Roman, Times, serif"
  else if fontFamily = "Courier New" then "Courier New, Courier, monospace"
  else if fontFamily = "Verdana" then "Verdana, sans-serif"
  else if fontFamily = "Impact" then "Impact, sans-serif"
  else "Arial, sans-serif"

/-- Which of the up to three `<text>` elements a piece is. -/
inductive TextPieceKind where
  | shadowPiece
  | strokePiece
  | fillPiece
deriving DecidableEq

/-- The fill attribute of a text piece: the half-alpha rgba of a parsed shadow color,
a raw color string, or `none` (stroke-only element). -/
inductive TextFillSpec where
  | rgbaHalf (r g b : Int)
  | named (s : String)
  | noFill
deriving DecidableEq

/-- One emitted `<text>` element. -/
structure TextPiece where
  kind : TextPieceKind
  x : Int
  y : Int
  fontFamily : String
  fontSize : Int
  fontWeight : FontWeight
  fill : TextFillSpec
  strokeAttr : Option (String × Int)
  anchor : String
  content : String
deriving DecidableEq

/-- `createTextSvgElement` from `textOverlay.ts` (lines 134-223 of the module):
shadow element first (offset by the shadow offsets), then an optional stroke-only
element, then the fill element, all anchored at `absX` with the same text-anchor. -/
def createTextSvgElement (overlay : TextOverlay) (width height : Int) :
    List TextPiece :=
  let absX := jsRound (overlay.x * (width : ℚ))
  let absY := jsRound (overlay.y * (height : ℚ))
  let textAnchor := match overlay.align with
    | .left => "start"
    | .center => "middle"
    | .right => "end"
  let alignedX := absX
  let escapedText := escapeXml overlay.text
  let mappedFont := mapFontFamily overlay.fontFamily
  let shadowPieces := match overlay.shadow with
    | some shadow =>
      let shadowColor := match hexToRgb shadow.color with
        | some rgb => TextFillSpec.rgbaHalf rgb.r rgb.g rgb.b
        | none => TextFillSpec.named shadow.color
      [{ kind := .shadowPiece, x := alignedX + shadow.offsetX, y := absY + shadow.offsetY,
         fontFamily := mappedFont, fontSize := overlay.fontSize,
         fontWeight := overlay.fontWeight, fill := shadowColor, strokeAttr := none,
         anchor := textAnchor, content := escapedText }]
    | none => []
  let strokePieces := match overlay.stroke with
    | some stroke =>
      if 0 < stroke.width then
        [{ kind := .strokePiece, x := alignedX, y := absY,
           fontFamily := mappedFont, fontSize := overlay.fontSize,
           fontWeight := overlay.fontWeight, fill := TextFillSpec.noFill,
           strokeAttr := some (stroke.color, stroke.width),
           anchor := textAnchor, content := escapedText }]
      else []
    | none => []
  shadowPieces ++ strokePieces ++
    [{ kind := .fillPiece, x := alignedX, y := absY,
       fontFamily := mappedFont, fontSize := overlay.fontSize,
       fontWeight := overlay.fontWeight, fill := TextFillSpec.named overlay.color,
       strokeAttr := none, anchor := textAnchor, content := escapedText }]

/-! The vector backend (`buildGridSvg`). -/

/-- One node emitted into the SVG string, in emission order. -/
inductive SvgNode where
  | defsOpen
  | defsClose
  | backgroundRect (width height : Int) (fill : String)
  | clipPathRect (index : Nat) (x y width height radius : Int)
  | imageNode (x y : ℚ) (width height : Int) (clipped : Bool)
  | borderRectNode (x y : ℚ) (width height : Int) (radius : ℚ) (stroke : String)
      (strokeWidth : Int)
  | textNode (piece : TextPiece)
deriving DecidableEq

/-- The per-image loop of `buildGridSvg` (lines 465-593): for each image/position
pair (`continue` when the position is missing) it emits an optional clip path, the
`<image>` element (for `contain`, at unrounded half offsets), and an optional border
`<rect>` centered on the cell boundary. -/
def svgCellNodes (options : GridOptions) :
    Nat → List GridImage → List CellPosition → Except DecodeError (List SvgNode)
  | _, [], _ => .ok []
  | _, _ :: _, [] => .ok []
  | i, image :: restImages, position :: restPositions =>
    match image.buffer.decoded with
    | none => .error { buffer := image.buffer }
    | some meta =>
      match svgCellNodes options (i + 1) restImages restPositions with
      | .error e => .error e
      | .ok rest =>
        let clipNodes := if 0 < options.cornerRadius then
            [SvgNode.clipPathRect i position.x position.y position.width position.height
              options.cornerRadius]
          else []
        let imageNode := match options.imageFit with
          | .contain =>
            let imgWidth := jsOrOne meta.width
            let imgHeight := jsOrOne meta.height
            let scale : ℚ := min ((position.width : ℚ) / (imgWidth : ℚ))
                ((position.height : ℚ) / (imgHeight : ℚ))
            let newWidth := jsRound ((imgWidth : ℚ) * scale)
            let newHeight := jsRound ((imgHeight : ℚ) * scale)
            let offsetX : ℚ := ((position.width - newWidth : Int) : ℚ) / 2
            let offsetY : ℚ := ((position.height - newHeight : Int) : ℚ) / 2
            SvgNode.imageNode ((position.x : ℚ) + offsetX) ((position.y : ℚ) + offsetY)
              newWidth newHeight (0 < options.cornerRadius)
          | _ =>
            SvgNode.imageNode (position.x : ℚ) (position.y : ℚ) position.width
              position.height (0 < options.cornerRadius)
        let borderNodes := if 0 < options.borderWidth then
            [SvgNode.borderRectNode
              ((position.x : ℚ) - (options.borderWidth : ℚ) / 2)
              ((position.y : ℚ) - (options.borderWidth : ℚ) / 2)
              (position.width + options.borderWidth) (position.height + options.borderWidth)
              ((options.cornerRadius : ℚ) + (options.borderWidth : ℚ) / 2)
              options.borderColor options.borderWidth]
          else []
        .ok (clipNodes ++ [imageNode] ++ borderNodes ++ rest)

/-- The SVG document: root `width`/`height` attributes and the body nodes between
the opening and closing `<svg>` tags, in emission order. -/
structure SvgDoc where
  width : Int
  height : Int
  body : List SvgNode
deriving DecidableEq

/-- `buildGridSvg` from `grid.ts` (lines 424-608): opens `<defs>`, emits the
background rect (when the color is truthy and not `"transparent"`), runs the
per-cell loop, closes `</defs>`, then appends the text overlay elements. -/
def buildGridSvg (images : List GridImage) (options : GridOptions)
    (textOverlays : List TextOverlay) : Except DecodeError SvgDoc :=
  let sortedImages := sortImages images
  let actualDimensions := calculateActualDimensions options sortedImages.length
  let canvasWidth := actualDimensions.width
  let canvasHeight := actualDimensions.height
  let positions := calculateCellPositions (adjustedOptions options sortedImages.length)
      sortedImages.length
  let backgroundNodes := if options.backgroundColor ≠ "" ∧
        options.backgroundColor ≠ "transparent" then
      [SvgNode.backgroundRect canvasWidth canvasHeight options.backgroundColor]
    else []
  match svgCellNodes options 0 sortedImages positions with
  | .error e => .error e
  | .ok cellNodes =>
    let textNodes := (textOverlays.map fun overlay =>
        (createTextSvgElement overlay canvasWidth canvasHeight).map SvgNode.textNode).flatten
    .ok { width := canvasWidth, height := canvasHeight,
          body := [SvgNode.defsOpen] ++ backgroundNodes ++ cellNodes ++
            [SvgNode.defsClose] ++ textNodes }

/-- Classification of nodes that the source emits inside the `<defs>` section. -/
def isDefsContent : SvgNode → Bool
  | .backgroundRect _ _ _ => true
  | .clipPathRect _ _ _ _ _ _ => true
  | .imageNode _ _ _ _ _ => true
  | .borderRectNode _ _ _ _ _ _ _ => true
  | _ => false

/-- Closed form of the cell position at index `i` (specification helper: the value
`calculateCellPositions` pushes when the row test passes). -/
def cellPositionAt (options : GridOptions) (i : Nat) : CellPosition :=
  let cellWidth := jsFloorDiv (options.width - options.padding * (options.cols + 1) -
      options.borderWidth * options.cols * 2) options.cols
  let cellHeight := jsFloorDiv (options.height - options.padding * (options.rows + 1) -
      options.borderWidth * options.rows * 2) options.rows
  let finalCellWidth := max 1 cellWidth
  let finalCellHeight := max 1 cellHeight
  { x := options.padding + options.borderWidth +
      ((i : Int) % options.cols) * (finalCellWidth + options.borderWidth * 2 + options.padding),
    y := options.padding + options.borderWidth +
      (jsFloorDiv (i : Int) options.cols) * (finalCellHeight + options.borderWidth * 2 + options.padding),
    width := finalCellWidth,
    height := finalCellHeight }

/-! ## Helper lemmas -/

theorem jsFloorDiv_eq_ediv (a : Int) {b : Int} (hb : 0 < b) : jsFloorDiv a b = a / b :=
  Int.fdiv_eq_ediv a hb.le

theorem jsCeilDiv_eq_neg_ediv_neg (a : Int) {b : Int} (hb : 0 < b) :
    jsCeilDiv a b = -(-a / b) := by
  unfold jsCeilDiv
  rw [Int.fdiv_eq_ediv _ hb.le]

/-- Every index `i < n` lands in a row strictly below the actual row count. -/
theorem row_lt_actualRows {n i : Nat} {cols : Int} (hc : 1 ≤ cols) (hi : i < n) :
    jsFloorDiv (i : Int) cols < calculateActualRows n cols := by
  have hc0 : (0 : Int) < cols := hc
  rw [jsFloorDiv_eq_ediv _ hc0, calculateActualRows, jsCeilDiv_eq_neg_ediv_neg _ hc0,
    Int.ediv_lt_iff_lt_mul hc0]
  have h1 : (-(n : Int)) / cols * cols ≤ -(n : Int) := Int.ediv_mul_le _ (by omega)
  have h2 : (i : Int) < (n : Int) := by exact_mod_cast hi
  have h3 : -(-(n : Int) / cols) * cols = -(-(n : Int) / cols * cols) := neg_mul _ _
  omega

theorem one_le_actualRows {n : Nat} {cols : Int} (hc : 1 ≤ cols) (hn : 1 ≤ n) :
    1 ≤ calculateActualRows n cols := by
  have hc0 : (0 : Int) < cols := hc
  rw [calculateActualRows, jsCeilDiv_eq_neg_ediv_neg _ hc0]
  have hneg : (-(n : Int)) < 0 := by
    have : (1 : Int) ≤ (n : Int) := by exact_mod_cast hn
    omega
  have := Int.ediv_neg' hneg hc0
  omega

theorem filterMap_eq_map_of_forall {α β : Type} (l : List α) (f : α → Option β)
    (g : α → β) (h : ∀ a ∈ l, f a = some (g a)) : l.filterMap f = l.map g := by
  induction l with
  | nil => rfl
  | cons a l ih =>
    rw [List.filterMap_cons, h a (List.mem_cons_self a l), List.map_cons,
      ih fun x hx => h x (List.mem_cons_of_mem a hx)]

/-- With at least one column, the row test in `calculateCellPositions` never skips,
so the position list is the pointwise image of the index range. -/
theorem calculateCellPositions_eq_map {options : GridOptions} {imageCount : Nat}
    (hc : 1 ≤ options.cols) :
    calculateCellPositions options imageCount =
      (List.range imageCount).map (cellPositionAt options) := by
  simp only [calculateCellPositions]
  apply filterMap_eq_map_of_forall
  intro i hi
  have hi' : i < imageCount := List.mem_range.mp hi
  rw [if_neg (not_le.mpr (row_lt_actualRows hc hi'))]
  rfl

theorem calculateCellPositions_length {options : GridOptions} {imageCount : Nat}
    (hc : 1 ≤ options.cols) :
    (calculateCellPositions options imageCount).length = imageCount := by
  rw [calculateCellPositions_eq_map hc, List.length_map, List.length_range]

/-- `buildGrid` rewrites `rows` to the actual row count and `height` to the
recomputed canvas height; the positions it derives from the rewritten options are
exactly the positions of the original options. -/
theorem adjustedOptions_positions_eq {options : GridOptions} {imageCount : Nat}
    (hc : 1 ≤ options.cols) (hn : 1 ≤ imageCount) :
    calculateCellPositions (adjustedOptions options imageCount) imageCount =
      calculateCellPositions options imageCount := by
  have hc' : 1 ≤ (adjustedOptions options imageCount).cols := hc
  rw [calculateCellPositions_eq_map hc', calculateCellPositions_eq_map hc]
  have haR : 1 ≤ calculateActualRows imageCount options.cols := one_le_actualRows hc hn
  have hfun : cellPositionAt (adjustedOptions options imageCount) = cellPositionAt options := by
    funext i
    have hheight :
        jsFloorDiv ((calculateActualDimensions options imageCount).height -
            options.padding * ((calculateActualDimensions options imageCount).rows + 1) -
            options.borderWidth * (calculateActualDimensions options imageCount).rows * 2)
          (calculateActualDimensions options imageCount).rows =
        jsFloorDiv (options.height - options.padding * (options.rows + 1) -
            options.borderWidth * options.rows * 2) options.rows := by
      show jsFloorDiv ((calculateActualDimensions options imageCount).height -
          options.padding * (calculateActualRows imageCount options.cols + 1) -
          options.borderWidth * calculateActualRows imageCount options.cols * 2)
          (calculateActualRows imageCount options.cols) = _
      have hnum : (calculateActualDimensions options imageCount).height -
          options.padding * (calculateActualRows imageCount options.cols + 1) -
          options.borderWidth * calculateActualRows imageCount options.cols * 2 =
          jsFloorDiv (options.height - options.padding * (options.rows + 1) -
            options.borderWidth * options.rows * 2) options.rows *
            calculateActualRows imageCount options.cols := by
        show options.padding * (calculateActualRows imageCount options.cols + 1) +
            options.borderWidth * calculateActualRows imageCount options.cols * 2 +
            jsFloorDiv (options.height - options.padding * (options.rows + 1) -
              options.borderWidth * options.rows * 2) options.rows *
              calculateActualRows imageCount options.cols -
            options.padding * (calculateActualRows imageCount options.cols + 1) -
            options.borderWidth * calculateActualRows imageCount options.cols * 2 = _
        ring
      rw [hnum, jsFloorDiv_eq_ediv _ (show (0 : Int) < _ by omega),
        Int.mul_ediv_cancel _ (by omega)]
    simp only [cellPositionAt, adjustedOptions]
    rw [hheight]
  rw [hfun]

/-! ## Claims -/

/-- Claim C1: for every grid spec and image count, `calculateActualDimensions`
computes `actualRows = ceil(n / cols)` and a rendered canvas height of
`padding*(actualRows+1) + borderWidth*actualRows*2 + cellHeight*actualRows`, where
`cellHeight = floor((canvasHeight - padding*(rows+1) - borderWidth*rows*2) / rows)`
uses the originally configured `rows` and `canvasHeight`; concretely for `cols=2,
rows=2, 1080×1080, padding=20, borderWidth=0` and one image, `cellHeight = 510`
and the final height is `550`. -/
theorem actualDimensions_height_formula :
    (∀ (options : GridOptions) (n : Nat),
      (calculateActualDimensions options n).rows = jsCeilDiv (n : Int) options.cols ∧
      (calculateActualDimensions options n).height =
        options.padding * ((calculateActualDimensions options n).rows + 1) +
        options.borderWidth * (calculateActualDimensions options n).rows * 2 +
        jsFloorDiv (options.height - options.padding * (options.rows + 1) -
            options.borderWidth * options.rows * 2) options.rows *
          (calculateActualDimensions options n).rows) ∧
    jsFloorDiv (1080 - 20 * (2 + 1) - 0 * 2 * 2) 2 = 510 ∧
    (calculateActualDimensions ⟨2, 2, 1080, 1080, 20, "#ffffff", 0, "#000000", 0, .cover⟩
      1).height = 550 :=
  ⟨fun _ _ => ⟨rfl, rfl⟩, by decide, by decide⟩

/-- Claim C4 counterexample: a degenerate spec (padding exceeding the configured
canvas height) makes the layout calculator return a negative final canvas height,
so degenerate geometry is in fact produced. -/
theorem layout_negative_height_counterexample :
    (calculateActualDimensions ⟨1, 1, 100, 0, 10, "#ffffff", 0, "#000000", 0, .cover⟩
      5).height < 0 := by decide

/-- Claim C4 (amended): `calculateCellPositions` clamps cell width and height to a
minimum of one pixel, so every computed cell position has `width ≥ 1` and
`height ≥ 1` and the calculator never errors; however `calculateActualDimensions`
uses the unclamped cell height, so the final canvas height can still be negative
for degenerate specs. -/
theorem cellPositions_min_size (options : GridOptions) (imageCount : Nat)
    (p : CellPosition) (hp : p ∈ calculateCellPositions options imageCount) :
    1 ≤ p.width ∧ 1 ≤ p.height := by
  simp only [calculateCellPositions, List.mem_filterMap] at hp
  obtain ⟨i, -, hi⟩ := hp
  split at hi
  · exact absurd hi (by simp)
  · obtain rfl := Option.some.injEq .. ▸ hi
    exact ⟨le_max_left _ _, le_max_left _ _⟩

theorem cellPositions_min_size_witness :
    (⟨5, 5, 10, 10⟩ : CellPosition) ∈
      calculateCellPositions ⟨1, 1, 20, 20, 2, "#112233", 3, "#445566", 0, .cover⟩ 1 ∧
    (1 ≤ (⟨5, 5, 10, 10⟩ : CellPosition).width ∧
      1 ≤ (⟨5, 5, 10, 10⟩ : CellPosition).height) :=
  ⟨by decide, cellPositions_min_size ⟨1, 1, 20, 20, 2, "#112233", 3, "#445566", 0, .cover⟩ 1
    ⟨5, 5, 10, 10⟩ (by decide)⟩

/-- Claim C5: for every placed image index `i` the cell position is
`x = padding + borderWidth + (i % cols)*(cellWidth + borderWidth*2 + padding)`,
`y = padding + borderWidth + (i / cols)*(cellHeight + borderWidth*2 + padding)`
with the cell height derived from the originally configured `rows` and canvas
height, and the positions computed inside `buildGrid` — from options rewritten to
`rows = actualRows`, `height = finalHeight` — coincide with them. -/
theorem cellPosition_formula (options : GridOptions) (imageCount i : Nat)
    (hcols : 1 ≤ options.cols) (_hrows : 1 ≤ options.rows) (hi : i < imageCount) :
    (calculateCellPositions options imageCount)[i]? = some
      { x := options.padding + options.borderWidth + ((i : Int) % options.cols) *
          (max 1 (jsFloorDiv (options.width - options.padding * (options.cols + 1) -
            options.borderWidth * options.cols * 2) options.cols) +
            options.borderWidth * 2 + options.padding),
        y := options.padding + options.borderWidth + (jsFloorDiv (i : Int) options.cols) *
          (max 1 (jsFloorDiv (options.height - options.padding * (options.rows + 1) -
            options.borderWidth * options.rows * 2) options.rows) +
            options.borderWidth * 2 + options.padding),
        width := max 1 (jsFloorDiv (options.width - options.padding * (options.cols + 1) -
          options.borderWidth * options.cols * 2) options.cols),
        height := max 1 (jsFloorDiv (options.height - options.padding * (options.rows + 1) -
          options.borderWidth * options.rows * 2) options.rows) } ∧
    calculateCellPositions (adjustedOptions options imageCount) imageCount =
      calculateCellPositions options imageCount := by
  constructor
  · rw [calculateCellPositions_eq_map hcols, List.getElem?_map, List.getElem?_range hi]
    rfl
  · exact adjustedOptions_positions_eq hcols (by omega)

theorem cellPosition_formula_witness :
    (calculateCellPositions ⟨1, 1, 20, 20, 2, "#112233", 3, "#445566", 0, .cover⟩ 1)[0]? =
      some ⟨5, 5, 10, 10⟩ ∧
    calculateCellPositions
        (adjustedOptions ⟨1, 1, 20, 20, 2, "#112233", 3, "#445566", 0, .cover⟩ 1) 1 =
      calculateCellPositions ⟨1, 1, 20, 20, 2, "#112233", 3, "#445566", 0, .cover⟩ 1 := by
  have h := cellPosition_formula ⟨1, 1, 20, 20, 2, "#112233", 3, "#445566", 0, .cover⟩ 1 0
    (by decide) (by decide) (by decide)
  exact ⟨by rw [h.1]; decide, h.2⟩

/-- Claim C3 (code bug): the raster compositor does not honor
`backgroundColor = "transparent"` — `hexToRgb` rejects the string, so `buildGrid`
falls back to an opaque white `{r:255, g:255, b:255, alpha:1}` canvas instead of a
fully transparent one, as evaluated here on a concrete build. -/
theorem transparent_background_renders_opaque_white :
    gridBackground "transparent" = { r := 255, g := 255, b := 255, alpha := 1 } ∧
    (gridBackground "transparent").alpha ≠ 0 ∧
    (buildGrid [⟨⟨some ⟨8, 8⟩⟩, 0⟩]
        ⟨1, 1, 20, 20, 2, "transparent", 0, "#445566", 0, .cover⟩).toOption.map
      RasterResult.background = some { r := 255, g := 255, b := 255, alpha := 1 } := by
  refine ⟨by rfl, ?_, by rfl⟩
  intro h
  simp only [gridBackground] at h
  revert h
  decide

/-- Claim C6: under the `contain` policy a source image of size `(iw, ih)` fitted
into a `(tw, th)` cell is uniformly scaled by `min(tw/iw, th/ih)`, rounded, and
centered at rounded half offsets on a fully transparent canvas of exactly
`(tw, th)`; concretely a 600×200 image in a 300×300 cell becomes 300×100 at offset
`(0, 100)`. -/
theorem contain_fit_spec (buffer : SourceBuffer) (meta : ImageMeta)
    (width height radius : Int) (hdec : buffer.decoded = some meta)
    (hw : 0 < meta.width) (hh : 0 < meta.height) :
    applyRoundedCorners buffer width height radius .contain = .ok
      { width := width, height := height,
        content := .containContent (containLayout meta width height),
        roundedRadius := if radius ≤ 0 then none else some radius } ∧
    (containLayout meta width height).innerWidth =
      jsRound ((meta.width : ℚ) *
        min ((width : ℚ) / (meta.width : ℚ)) ((height : ℚ) / (meta.height : ℚ))) ∧
    (containLayout meta width height).innerHeight =
      jsRound ((meta.height : ℚ) *
        min ((width : ℚ) / (meta.width : ℚ)) ((height : ℚ) / (meta.height : ℚ))) ∧
    (containLayout meta width height).left =
      jsRound (((width - (containLayout meta width height).innerWidth : Int) : ℚ) / 2) ∧
    (containLayout meta width height).top =
      jsRound (((height - (containLayout meta width height).innerHeight : Int) : ℚ) / 2) ∧
    (containLayout meta width height).canvasWidth = width ∧
    (containLayout meta width height).canvasHeight = height ∧
    (containLayout meta width height).background = { r := 0, g := 0, b := 0, alpha := 0 } ∧
    containLayout ⟨600, 200⟩ 300 300 =
      { canvasWidth := 300, canvasHeight := 300, background := ⟨0, 0, 0, 0⟩,
        innerWidth := 300, innerHeight := 100, left := 0, top := 100 } := by
  have hw' : jsOrOne meta.width = meta.width := by
    unfold jsOrOne
    rw [if_neg (by omega)]
  have hh' : jsOrOne meta.height = meta.height := by
    unfold jsOrOne
    rw [if_neg (by omega)]
  refine ⟨?_, ?_, ?_, ?_, ?_, rfl, rfl, rfl, ?_⟩
  · unfold applyRoundedCorners
    rw [hdec]
  · simp only [containLayout, hw', hh']
  · simp only [containLayout, hw', hh']
  · simp only [containLayout, hw', hh']
  · simp only [containLayout, hw', hh']
  · norm_num [containLayout, jsRound, jsOrOne]

theorem contain_fit_spec_witness :
    applyRoundedCorners ⟨some ⟨600, 200⟩⟩ 300 300 0 .contain = .ok
      { width := 300, height := 300,
        content := .containContent (containLayout ⟨600, 200⟩ 300 300),
        roundedRadius := none } ∧
    containLayout ⟨600, 200⟩ 300 300 =
      { canvasWidth := 300, canvasHeight := 300, background := ⟨0, 0, 0, 0⟩,
        innerWidth := 300, innerHeight := 100, left := 0, top := 100 } := by
  have h := contain_fit_spec ⟨some ⟨600, 200⟩⟩ ⟨600, 200⟩ 300 300 0 rfl
    (by decide) (by decide)
  exact ⟨h.1, h.2.2.2.2.2.2.2.2⟩

/-- Claim C8: each `TextOverlay` is anchored at `absX = round(x * canvasWidth)`,
`absY = round(y * canvasHeight)`; the alignment maps to text-anchor `start`,
`middle` or `end`, every emitted text element shares that anchor value, and the
anchor x-coordinate of the rendered (fill) element is `absX` regardless of
alignment; concretely `x=1.0, y=0.0, align right` on a 1000×500 canvas anchors at
`(1000, 0)` with anchor `end`. -/
theorem text_overlay_anchor_spec (overlay : TextOverlay) (width height : Int) :
    ((createTextSvgElement overlay width height).getLast? = some
      { kind := .fillPiece,
        x := jsRound (overlay.x * (width : ℚ)),
        y := jsRound (overlay.y * (height : ℚ)),
        fontFamily := mapFontFamily overlay.fontFamily,
        fontSize := overlay.fontSize,
        fontWeight := overlay.fontWeight,
        fill := .named overlay.color,
        strokeAttr := none,
        anchor := match overlay.align with
          | .left => "start"
          | .center => "middle"
          | .right => "end",
        content := escapeXml overlay.text }) ∧
    (∀ piece ∈ createTextSvgElement overlay width height,
      piece.anchor = match overlay.align with
        | .left => "start"
        | .center => "middle"
        | .right => "end") ∧
    (createTextSvgElement ⟨"Label", 1, 0, "Arial", 48, .bold, "#ffffff", .right, none, none⟩
        1000 500).getLast? = some
      { kind := .fillPiece, x := 1000, y := 0, fontFamily := "Arial, sans-serif",
        fontSize := 48, fontWeight := .bold, fill := .named "#ffffff",
        strokeAttr := none, anchor := "end", content := "Label" } := by
  refine ⟨?_, ?_, ?_⟩
  · simp only [createTextSvgElement]
    rw [List.getLast?_concat]
  · intro piece hpiece
    simp only [createTextSvgElement, List.mem_append] at hpiece
    rcases hpiece with (hpiece | hpiece) | hpiece
    · revert hpiece
      cases overlay.shadow with
      | none => simp
      | some shadow =>
        intro hpiece
        simp only [List.mem_singleton] at hpiece
        rw [hpiece]
    · revert hpiece
      cases overlay.stroke with
      | none => simp
      | some stroke =>
        by_cases hsw : 0 < stroke.width
        · simp only [if_pos hsw, List.mem_singleton]
          intro hpiece
          rw [hpiece]
        · simp [hsw]
    · simp only [List.mem_singleton] at hpiece
      rw [hpiece]
  · norm_num [createTextSvgElement, jsRound, escapeXml, escapeXmlChar, mapFontFamily]
    decide

theorem text_overlay_anchor_spec_witness :
    ((⟨.fillPiece, 320, 240, "Arial, sans-serif", 10, .normal, .named "#ffffff", none,
        "middle", "Hi"⟩ : TextPiece) ∈
      createTextSvgElement ⟨"Hi", 1/2, 1/2, "Arial", 10, .normal, "#ffffff", .center,
        none, none⟩ 640 480) ∧
    (⟨.fillPiece, 320, 240, "Arial, sans-serif", 10, .normal, .named "#ffffff", none,
        "middle", "Hi"⟩ : TextPiece).anchor = "middle" := by
  have hmem : (⟨.fillPiece, 320, 240, "Arial, sans-serif", 10, .normal,
      .named "#ffffff", none, "middle", "Hi"⟩ : TextPiece) ∈
      createTextSvgElement ⟨"Hi", 1/2, 1/2, "Arial", 10, .normal, "#ffffff", .center,
        none, none⟩ 640 480 := by
    norm_num [createTextSvgElement, jsRound, escapeXml, escapeXmlChar, mapFontFamily]
    decide
  exact ⟨hmem, text_overlay_anchor_spec
    ⟨"Hi", 1/2, 1/2, "Arial", 10, .normal, "#ffffff", .center, none, none⟩ 640 480
    |>.2.1 _ hmem⟩

/-! ## Sorting and build-pipeline lemmas -/

theorem insertByOrder_perm (image : GridImage) (l : List GridImage) :
    List.Perm (insertByOrder image l) (image :: l) := by
  induction l with
  | nil => exact List.Perm.refl _
  | cons head tail ih =>
    simp only [insertByOrder]
    split
    · exact List.Perm.refl _
    · exact (List.Perm.cons head ih).trans (List.Perm.swap image head tail)

theorem sortImages_perm (l : List GridImage) : List.Perm (sortImages l) l := by
  induction l with
  | nil => exact List.Perm.refl _
  | cons image rest ih =>
    simp only [sortImages]
    exact (insertByOrder_perm image (sortImages rest)).trans (List.Perm.cons image ih)

theorem applyRoundedCorners_ok_size {imageBuffer : SourceBuffer} {w h r : Int}
    {fit : ImageFit} {c : ProcessedCell}
    (hc : applyRoundedCorners imageBuffer w h r fit = .ok c) :
    c.width = w ∧ c.height = h := by
  unfold applyRoundedCorners at hc
  split at hc
  · simp at hc
  · injection hc with hc'
    subst hc'
    exact ⟨rfl, rfl⟩

theorem applyRoundedCorners_none {imageBuffer : SourceBuffer} {w h r : Int}
    {fit : ImageFit} (hb : imageBuffer.decoded = none) :
    applyRoundedCorners imageBuffer w h r fit = .error { buffer := imageBuffer } := by
  unfold applyRoundedCorners
  rw [hb]

theorem applyRoundedCorners_some {imageBuffer : SourceBuffer} {w h r : Int}
    {fit : ImageFit} {meta : ImageMeta} (hb : imageBuffer.decoded = some meta) :
    ∃ c, applyRoundedCorners imageBuffer w h r fit = .ok c := by
  unfold applyRoundedCorners
  rw [hb]
  exact ⟨_, rfl⟩

/-- Shape of a successful `buildGrid` result. -/
theorem buildGrid_ok_fields {images : List GridImage} {options : GridOptions}
    {r : RasterResult} (h : buildGrid images options = .ok r) :
    r.canvasWidth = (calculateActualDimensions options (sortImages images).length).width ∧
    r.canvasHeight = (calculateActualDimensions options (sortImages images).length).height ∧
    r.background = gridBackground options.backgroundColor ∧
    ∃ imageComposites borderComposites,
      buildCellComposites options (sortImages images)
          (calculateCellPositions (adjustedOptions options (sortImages images).length)
            (sortImages images).length) = .ok (imageComposites, borderComposites) ∧
      r.composites = imageComposites ++ borderComposites := by
  simp only [buildGrid] at h
  split at h
  · simp at h
  · rename_i imageComposites borderComposites heq
    injection h with h'
    subst h'
    exact ⟨rfl, rfl, rfl, imageComposites, borderComposites, heq, rfl⟩

/-- Shape of a successful `buildGridSvg` result. -/
theorem buildGridSvg_ok_fields {images : List GridImage} {options : GridOptions}
    {textOverlays : List TextOverlay} {d : SvgDoc}
    (h : buildGridSvg images options textOverlays = .ok d) :
    d.width = (calculateActualDimensions options (sortImages images).length).width ∧
    d.height = (calculateActualDimensions options (sortImages images).length).height := by
  simp only [buildGridSvg] at h
  split at h
  · simp at h
  · injection h with h'
    subst h'
    exact ⟨rfl, rfl⟩

/-- Claim C2: for identical inputs the `width`/`height` attributes of the SVG root
produced by `buildGridSvg` equal the pixel dimensions of the raster canvas produced
by `buildGrid`. -/
theorem raster_svg_dimensions_agree (images : List GridImage) (options : GridOptions)
    (textOverlays : List TextOverlay) (r : RasterResult) (d : SvgDoc)
    (hr : buildGrid images options = .ok r)
    (hd : buildGridSvg images options textOverlays = .ok d) :
    d.width = r.canvasWidth ∧ d.height = r.canvasHeight := by
  obtain ⟨hw, hh, -, -⟩ := buildGrid_ok_fields hr
  obtain ⟨hw2, hh2⟩ := buildGridSvg_ok_fields hd
  rw [hw, hh, hw2, hh2]
  exact ⟨rfl, rfl⟩

theorem raster_svg_dimensions_agree_witness :
    buildGrid [⟨⟨some ⟨8, 8⟩⟩, 0⟩] ⟨1, 1, 20, 20, 2, "#112233", 0, "#445566", 0, .cover⟩ =
      .ok ⟨20, 20, ⟨17, 34, 51, 1⟩, [⟨.imageOp, 2, 2, 16, 16⟩]⟩ ∧
    buildGridSvg [⟨⟨some ⟨8, 8⟩⟩, 0⟩] ⟨1, 1, 20, 20, 2, "#112233", 0, "#445566", 0, .cover⟩
        [] =
      .ok ⟨20, 20, [.defsOpen, .backgroundRect 20 20 "#112233",
        .imageNode 2 2 16 16 false, .defsClose]⟩ ∧
    ((⟨20, 20, [.defsOpen, .backgroundRect 20 20 "#112233", .imageNode 2 2 16 16 false,
        .defsClose]⟩ : SvgDoc).width =
      (⟨20, 20, ⟨17, 34, 51, 1⟩, [⟨.imageOp, 2, 2, 16, 16⟩]⟩ : RasterResult).canvasWidth ∧
    (⟨20, 20, [.defsOpen, .backgroundRect 20 20 "#112233", .imageNode 2 2 16 16 false,
        .defsClose]⟩ : SvgDoc).height =
      (⟨20, 20, ⟨17, 34, 51, 1⟩, [⟨.imageOp, 2, 2, 16, 16⟩]⟩ : RasterResult).canvasHeight) :=
  ⟨by rfl, by rfl,
    raster_svg_dimensions_agree [⟨⟨some ⟨8, 8⟩⟩, 0⟩]
      ⟨1, 1, 20, 20, 2, "#112233", 0, "#445566", 0, .cover⟩ []
      ⟨20, 20, ⟨17, 34, 51, 1⟩, [⟨.imageOp, 2, 2, 16, 16⟩]⟩
      ⟨20, 20, [.defsOpen, .backgroundRect 20 20 "#112233", .imageNode 2 2 16 16 false,
        .defsClose]⟩ (by rfl) (by rfl)⟩

/-- Everything `buildCellComposites` returns on success: image composites carry the
image kind, border composites carry the border kind and straddle a corresponding
image composite by `borderWidth` on each side. -/
theorem buildCellComposites_ok_spec (options : GridOptions) (imgs : List GridImage) :
    ∀ (poss : List CellPosition) (imageComposites borderComposites : List CompositeOp),
      buildCellComposites options imgs poss = .ok (imageComposites, borderComposites) →
      (∀ op ∈ imageComposites, op.kind = .imageOp) ∧
      (∀ op ∈ borderComposites, op.kind = .borderOp ∧
        ∃ cellOp ∈ imageComposites,
          op.left = cellOp.left - options.borderWidth ∧
          op.top = cellOp.top - options.borderWidth ∧
          op.width = cellOp.width + 2 * options.borderWidth ∧
          op.height = cellOp.height + 2 * options.borderWidth) := by
  induction imgs with
  | nil =>
    intro poss imageComposites borderComposites h
    simp only [buildCellComposites] at h
    injection h with h'
    obtain ⟨rfl, rfl⟩ := Prod.mk.injEq .. ▸ h'.symm
    exact ⟨by simp, by simp⟩
  | cons img restImages ih =>
    intro poss imageComposites borderComposites h
    cases poss with
    | nil =>
      simp only [buildCellComposites] at h
      injection h with h'
      obtain ⟨rfl, rfl⟩ := Prod.mk.injEq .. ▸ h'.symm
      exact ⟨by simp, by simp⟩
    | cons pos restPositions =>
      simp only [buildCellComposites] at h
      split at h
      · simp at h
      · rename_i processedImage hproc
        split at h
        · simp at h
        · rename_i restImageOps restBorderOps hrest
          injection h with h'
          obtain ⟨rfl, rfl⟩ := Prod.mk.injEq .. ▸ h'.symm
          obtain ⟨ihImages, ihBorders⟩ := ih restPositions restImageOps restBorderOps hrest
          obtain ⟨hpw, hph⟩ := applyRoundedCorners_ok_size hproc
          constructor
          · intro op hop
            rcases List.mem_cons.mp hop with rfl | hop'
            · rfl
            · exact ihImages op hop'
          · intro op hop
            rcases List.mem_append.mp hop with hop' | hop'
            · revert hop'
              split
              · rename_i hbw
                split
                · rename_i border hborder
                  intro hop'
                  simp only [List.mem_singleton] at hop'
                  subst hop'
                  have hbw' : border.width = pos.width + options.borderWidth * 2 ∧
                      border.height = pos.height + options.borderWidth * 2 := by
                    unfold createCellBorder at hborder
                    rw [if_neg (by omega)] at hborder
                    injection hborder with hborder'
                    subst hborder'
                    exact ⟨rfl, rfl⟩
                  refine ⟨rfl, ⟨.imageOp, pos.x, pos.y, processedImage.width,
                    processedImage.height⟩, List.mem_cons_self .., rfl, rfl, ?_, ?_⟩
                  · show border.width = processedImage.width + 2 * options.borderWidth
                    rw [hbw'.1, hpw]
                    ring
                  · show border.height = processedImage.height + 2 * options.borderWidth
                    rw [hbw'.2, hph]
                    ring
                · rename_i hborder
                  intro hop'
                  simp at hop'
              · intro hop'
                simp at hop'
            · obtain ⟨hkind, cellOp, hcell, hrel⟩ := ihBorders op hop'
              exact ⟨hkind, cellOp, List.mem_cons_of_mem _ hcell, hrel⟩

/-- Claim C7: in every successful raster build with `borderWidth > 0`, the composite
list is all cell images followed by all border overlays (so each border is drawn on
top of every cell image), and each border overlay is a `(w + 2b) × (h + 2b)` buffer
composited at `(x - b, y - b)` for its cell's image composite at `(x, y, w, h)`. -/
theorem border_overlay_two_pass (images : List GridImage) (options : GridOptions)
    (r : RasterResult) (_hb : 0 < options.borderWidth)
    (hr : buildGrid images options = .ok r) :
    ∃ imageComposites borderComposites,
      r.composites = imageComposites ++ borderComposites ∧
      (∀ op ∈ imageComposites, op.kind = .imageOp) ∧
      (∀ op ∈ borderComposites, op.kind = .borderOp) ∧
      (∀ op ∈ borderComposites, ∃ cellOp ∈ imageComposites,
        op.left = cellOp.left - options.borderWidth ∧
        op.top = cellOp.top - options.borderWidth ∧
        op.width = cellOp.width + 2 * options.borderWidth ∧
        op.height = cellOp.height + 2 * options.borderWidth) := by
  obtain ⟨-, -, -, imageComposites, borderComposites, hbc, hcomp⟩ := buildGrid_ok_fields hr
  obtain ⟨hImages, hBorders⟩ := buildCellComposites_ok_spec options (sortImages images) _
    imageComposites borderComposites hbc
  exact ⟨imageComposites, borderComposites, hcomp, hImages,
    fun op hop => (hBorders op hop).1, fun op hop => (hBorders op hop).2⟩

theorem border_overlay_two_pass_witness :
    buildGrid [⟨⟨some ⟨8, 8⟩⟩, 0⟩] ⟨1, 1, 20, 20, 2, "#112233", 3, "#445566", 0, .cover⟩ =
      .ok ⟨20, 20, ⟨17, 34, 51, 1⟩, [⟨.imageOp, 5, 5, 10, 10⟩, ⟨.borderOp, 2, 2, 16, 16⟩]⟩ ∧
    (0 : Int) < 3 ∧
    (∃ imageComposites borderComposites,
      (⟨20, 20, ⟨17, 34, 51, 1⟩, [⟨.imageOp, 5, 5, 10, 10⟩, ⟨.borderOp, 2, 2, 16, 16⟩]⟩ :
          RasterResult).composites = imageComposites ++ borderComposites ∧
      (∀ op ∈ imageComposites, op.kind = .imageOp) ∧
      (∀ op ∈ borderComposites, op.kind = .borderOp) ∧
      (∀ op ∈ borderComposites, ∃ cellOp ∈ imageComposites,
        op.left = cellOp.left - 3 ∧ op.top = cellOp.top - 3 ∧
        op.width = cellOp.width + 2 * 3 ∧ op.height = cellOp.height + 2 * 3)) :=
  ⟨by rfl, by decide,
    border_overlay_two_pass [⟨⟨some ⟨8, 8⟩⟩, 0⟩]
      ⟨1, 1, 20, 20, 2, "#112233", 3, "#445566", 0, .cover⟩
      ⟨20, 20, ⟨17, 34, 51, 1⟩, [⟨.imageOp, 5, 5, 10, 10⟩, ⟨.borderOp, 2, 2, 16, 16⟩]⟩
      (by decide) (by rfl)⟩

/-- Walking equally long image and position lists, a single undecodable buffer
aborts `buildCellComposites` with a `DecodeError` carrying that buffer. -/
theorem buildCellComposites_error_of_fail (options : GridOptions)
    (imgs : List GridImage) :
    ∀ (poss : List CellPosition), imgs.length ≤ poss.length →
      (∃ img ∈ imgs, img.buffer.decoded = none) →
      ∃ img ∈ imgs, img.buffer.decoded = none ∧
        buildCellComposites options imgs poss = .error { buffer := img.buffer } := by
  induction imgs with
  | nil =>
    intro poss _ hfail
    obtain ⟨img, hmem, -⟩ := hfail
    simp at hmem
  | cons img restImages ih =>
    intro poss hlen hfail
    cases poss with
    | nil => simp at hlen
    | cons pos restPositions =>
      by_cases hdec : img.buffer.decoded = none
      · refine ⟨img, List.mem_cons_self .., hdec, ?_⟩
        simp only [buildCellComposites, applyRoundedCorners_none hdec]
      · obtain ⟨meta, hmeta⟩ := Option.ne_none_iff_exists'.mp hdec
        obtain ⟨imgf, hmemf, hnonef⟩ : ∃ i ∈ restImages, i.buffer.decoded = none := by
          obtain ⟨i, hi, hni⟩ := hfail
          rcases List.mem_cons.mp hi with rfl | hi'
          · exact absurd hni hdec
          · exact ⟨i, hi', hni⟩
        obtain ⟨imgr, hmemr, hnoner, herr⟩ := ih restPositions
          (by simp only [List.length_cons] at hlen; omega) ⟨imgf, hmemf, hnonef⟩
        obtain ⟨c, hc⟩ : ∃ c, applyRoundedCorners img.buffer pos.width pos.height
            options.cornerRadius options.imageFit = .ok c := applyRoundedCorners_some hmeta
        refine ⟨imgr, List.mem_cons_of_mem _ hmemr, hnoner, ?_⟩
        simp only [buildCellComposites, hc, herr]

/-- Claim C9: if any source image in the list cannot be decoded, `buildGrid` (with a
valid column count, as the route handler enforces) returns a `DecodeError` carrying
the offending image's buffer and returns no composite at all. -/
theorem decode_failure_aborts (images : List GridImage) (options : GridOptions)
    (hcols : 1 ≤ options.cols)
    (hfail : ∃ img ∈ images, img.buffer.decoded = none) :
    ∃ img ∈ images, img.buffer.decoded = none ∧
      buildGrid images options = .error { buffer := img.buffer } := by
  have hperm := sortImages_perm images
  obtain ⟨img0, hmem0, hnone0⟩ := hfail
  have hlen : (sortImages images).length ≤
      (calculateCellPositions (adjustedOptions options (sortImages images).length)
        (sortImages images).length).length := by
    rw [calculateCellPositions_length
      (show 1 ≤ (adjustedOptions options (sortImages images).length).cols from hcols)]
  obtain ⟨img, hmem, hnone, herr⟩ := buildCellComposites_error_of_fail options
    (sortImages images) _ hlen ⟨img0, hperm.mem_iff.mpr hmem0, hnone0⟩
  refine ⟨img, hperm.mem_iff.mp hmem, hnone, ?_⟩
  simp only [buildGrid, herr]

theorem decode_failure_aborts_witness :
    (1 : Int) ≤ 1 ∧
    (∃ img ∈ [(⟨⟨none⟩, 7⟩ : GridImage)], img.buffer.decoded = none) ∧
    (∃ img ∈ [(⟨⟨none⟩, 7⟩ : GridImage)], img.buffer.decoded = none ∧
      buildGrid [⟨⟨none⟩, 7⟩] ⟨1, 1, 20, 20, 2, "#112233", 0, "#445566", 0, .cover⟩ =
        .error { buffer := img.buffer }) :=
  ⟨by decide, ⟨⟨⟨none⟩, 7⟩, by decide, rfl⟩,
    decode_failure_aborts [⟨⟨none⟩, 7⟩] ⟨1, 1, 20, 20, 2, "#112233", 0, "#445566", 0, .cover⟩
      (by decide) ⟨⟨⟨none⟩, 7⟩, by decide, rfl⟩⟩

/-- Every node emitted by the per-cell loop of `buildGridSvg` is defs content
(clip path, image element, or border rect). -/
theorem svgCellNodes_defs_only (options : GridOptions) (imgs : List GridImage) :
    ∀ (i : Nat) (poss : List CellPosition) (nodes : List SvgNode),
      svgCellNodes options i imgs poss = .ok nodes →
      ∀ node ∈ nodes, isDefsContent node = true := by
  induction imgs with
  | nil =>
    intro i poss nodes h node hnode
    simp only [svgCellNodes] at h
    injection h with h'
    subst h'
    simp at hnode
  | cons img restImages ih =>
    intro i poss nodes h node hnode
    cases poss with
    | nil =>
      simp only [svgCellNodes] at h
      injection h with h'
      subst h'
      simp at hnode
    | cons pos restPositions =>
      simp only [svgCellNodes] at h
      split at h
      · simp at h
      · rename_i meta hmeta
        split at h
        · simp at h
        · rename_i rest hrest
          injection h with h'
          subst h'
          simp only [List.append_assoc, List.mem_append, List.mem_singleton] at hnode
          rcases hnode with hclip | rfl | hborder | hrest'
          · revert hclip
            split
            · intro hclip
              simp only [List.mem_singleton] at hclip
              subst hclip
              rfl
            · intro hclip
              simp at hclip
          · cases options.imageFit <;> rfl
          · revert hborder
            split
            · intro hborder
              simp only [List.mem_singleton] at hborder
              subst hborder
              rfl
            · intro hborder
              simp at hborder
          · exact ih (i + 1) restPositions rest hrest node hrest'

/-- Claim C10: every SVG document built by `buildGridSvg` has the shape
`<defs>` · (background rect, clip paths, image elements, border rects) · `</defs>` ·
text elements: the closing `</defs>` comes only after the whole per-cell loop, and
only the text-overlay elements sit outside the defs section. -/
theorem svg_defs_enclosure (images : List GridImage) (options : GridOptions)
    (textOverlays : List TextOverlay) (doc : SvgDoc)
    (hd : buildGridSvg images options textOverlays = .ok doc) :
    ∃ inner textNodes,
      doc.body = SvgNode.defsOpen :: (inner ++ SvgNode.defsClose :: textNodes) ∧
      (∀ node ∈ inner, isDefsContent node = true) ∧
      (∀ node ∈ textNodes, ∃ piece, node = SvgNode.textNode piece) := by
  simp only [buildGridSvg] at hd
  split at hd
  · simp at hd
  · rename_i cellNodes hcells
    injection hd with h'
    subst h'
    refine ⟨(if options.backgroundColor ≠ "" ∧ options.backgroundColor ≠ "transparent" then
        [SvgNode.backgroundRect
          (calculateActualDimensions options (sortImages images).length).width
          (calculateActualDimensions options (sortImages images).length).height
          options.backgroundColor]
      else []) ++ cellNodes,
      (textOverlays.map fun overlay =>
        (createTextSvgElement overlay
          (calculateActualDimensions options (sortImages images).length).width
          (calculateActualDimensions options (sortImages images).length).height).map
          SvgNode.textNode).flatten,
      by simp, ?_, ?_⟩
    · intro node hnode
      rcases List.mem_append.mp hnode with hbg | hcell
      · revert hbg
        split
        · intro hbg
          simp only [List.mem_singleton] at hbg
          subst hbg
          rfl
        · intro hbg
          simp at hbg
      · exact svgCellNodes_defs_only options (sortImages images) 0 _ cellNodes hcells
          node hcell
    · intro node hnode
      simp only [List.mem_flatten, List.mem_map] at hnode
      obtain ⟨l, ⟨overlay, -, rfl⟩, hnl⟩ := hnode
      obtain ⟨piece, -, rfl⟩ := List.mem_map.mp hnl
      exact ⟨piece, rfl⟩

theorem svg_defs_enclosure_witness :
    buildGridSvg [⟨⟨some ⟨8, 8⟩⟩, 0⟩] ⟨1, 1, 20, 20, 2, "#112233", 0, "#445566", 0, .cover⟩
        [] =
      .ok ⟨20, 20, [.defsOpen, .backgroundRect 20 20 "#112233",
        .imageNode 2 2 16 16 false, .defsClose]⟩ ∧
    (∃ inner textNodes,
      (⟨20, 20, [.defsOpen, .backgroundRect 20 20 "#112233", .imageNode 2 2 16 16 false,
          .defsClose]⟩ : SvgDoc).body =
        SvgNode.defsOpen :: (inner ++ SvgNode.defsClose :: textNodes) ∧
      (∀ node ∈ inner, isDefsContent node = true) ∧
      (∀ node ∈ textNodes, ∃ piece, node = SvgNode.textNode piece)) :=
  ⟨by rfl,
    svg_defs_enclosure [⟨⟨some ⟨8, 8⟩⟩, 0⟩]
      ⟨1, 1, 20, 20, 2, "#112233", 0, "#445566", 0, .cover⟩ []
      ⟨20, 20, [.defsOpen, .backgroundRect 20 20 "#112233", .imageNode 2 2 16 16 false,
        .defsClose]⟩ (by rfl)⟩

end Forge
